import Mathlib

/-
Verification of the sequential payment-record processor
(`week5_consolidation`): a lending-iterator style cursor over an owned
list of raw record strings, replicated in three variants
(`PaymentsData` and `CsvPaymentsData` in lib.rs, `JSONPayments` in
day1_replication.rs), each with a `next_payment` operation and a
`process` transform.

Rust `Vec<String>` is embedded as `List String`, `usize` cursors as
`Nat` (the cursor is only ever incremented while strictly below the
list length, so no overflow is reachable), and a Rust panic from
out-of-bounds `Vec` indexing is made explicit with `Except RustPanic`.
The `async` framing in the source has no suspension point, so every
operation is embedded as a pure state-passing function.
-/

/-- A Rust panic that the embedded code can raise: the only panic site
in the embedded fragment is out-of-bounds `Vec` indexing. -/
inductive RustPanic where
  | indexOutOfBounds
deriving DecidableEq, Repr

/-- `PaymentsData` from lib.rs: `tx_list: Vec<String>`, `position: usize`. -/
structure PaymentsData where
  tx_list : List String
  position : Nat
deriving DecidableEq, Repr

/-- `CsvPaymentsData` from lib.rs: `rows: Vec<String>`, `position: usize`. -/
structure CsvPaymentsData where
  rows : List String
  position : Nat
deriving DecidableEq, Repr

/-- `JSONPayments` from day1_replication.rs: `tx_list: Vec<String>`,
`position: usize`. -/
structure JSONPayments where
  tx_list : List String
  position : Nat
deriving DecidableEq, Repr

/-- `PaymentsData::next_payment` (lib.rs lines 77-85): if
`position >= tx_list.len()` return `None`; otherwise read
`tx_list[position]` (a panicking index, modeled with `getElem?`),
increment the cursor, and return the record. -/
def PaymentsData.next_payment (s : PaymentsData) :
    Except RustPanic (Option String × PaymentsData) :=
  if s.position ≥ s.tx_list.length then
    Except.ok (none, s)
  else
    match s.tx_list[s.position]? with
    | some res => Except.ok (some res, { s with position := s.position + 1 })
    | none => Except.error RustPanic.indexOutOfBounds

/-- `PaymentsData::process` (lib.rs lines 87-93):
`self.next_payment().await.map(f)`. -/
def PaymentsData.process {T : Type} (s : PaymentsData) (f : String → T) :
    Except RustPanic (Option T × PaymentsData) :=
  match s.next_payment with
  | Except.error e => Except.error e
  | Except.ok (o, s2) => Except.ok (o.map f, s2)

/-- `CsvPaymentsData::next_payment` (lib.rs lines 149-157): identical
logic to `PaymentsData::next_payment` over the `rows` field. -/
def CsvPaymentsData.next_payment (s : CsvPaymentsData) :
    Except RustPanic (Option String × CsvPaymentsData) :=
  if s.position ≥ s.rows.length then
    Except.ok (none, s)
  else
    match s.rows[s.position]? with
    | some res => Except.ok (some res, { s with position := s.position + 1 })
    | none => Except.error RustPanic.indexOutOfBounds

/-- `CsvPaymentsData::process` (lib.rs lines 159-165):
`self.next_payment().await.map(f)`. -/
def CsvPaymentsData.process {T : Type} (s : CsvPaymentsData) (f : String → T) :
    Except RustPanic (Option T × CsvPaymentsData) :=
  match s.next_payment with
  | Except.error e => Except.error e
  | Except.ok (o, s2) => Except.ok (o.map f, s2)

/-- `JSONPayments::next_payment` (day1_replication.rs lines 35-42): the
guard is the equality test `tx_list.len() == position` (not `>=`);
when the guard fails the code indexes `tx_list[position]` unconditionally. -/
def JSONPayments.next_payment (s : JSONPayments) :
    Except RustPanic (Option String × JSONPayments) :=
  if s.tx_list.length = s.position then
    Except.ok (none, s)
  else
    match s.tx_list[s.position]? with
    | some res => Except.ok (some res, { s with position := s.position + 1 })
    | none => Except.error RustPanic.indexOutOfBounds

/-- `JSONPayments::process` (day1_replication.rs lines 44-49):
`self.next_payment().await.map(f)`. -/
def JSONPayments.process {T : Type} (s : JSONPayments) (f : String → T) :
    Except RustPanic (Option T × JSONPayments) :=
  match s.next_payment with
  | Except.error e => Except.error e
  | Except.ok (o, s2) => Except.ok (o.map f, s2)

/-- Iterate `PaymentsData.next_payment` a given number of times,
collecting the yielded results in call order. -/
def PaymentsData.runN : Nat → PaymentsData →
    Except RustPanic (List (Option String) × PaymentsData)
  | 0, s => Except.ok ([], s)
  | k + 1, s =>
    match s.next_payment with
    | Except.error e => Except.error e
    | Except.ok (o, s2) =>
      match PaymentsData.runN k s2 with
      | Except.error e => Except.error e
      | Except.ok (os, s3) => Except.ok (o :: os, s3)

/-- Iterate `JSONPayments.next_payment` a given number of times,
collecting the yielded results in call order. -/
def JSONPayments.runN : Nat → JSONPayments →
    Except RustPanic (List (Option String) × JSONPayments)
  | 0, s => Except.ok ([], s)
  | k + 1, s =>
    match s.next_payment with
    | Except.error e => Except.error e
    | Except.ok (o, s2) =>
      match JSONPayments.runN k s2 with
      | Except.error e => Except.error e
      | Except.ok (os, s3) => Except.ok (o :: os, s3)

/-- Observation of one `next_payment` call of `PaymentsData`: the yielded
record together with the successor state's sequence and cursor, in a type
shared by all three variants so their behaviors can be compared. -/
def PaymentsData.obsNext (s : PaymentsData) :
    Except RustPanic (Option String × List String × Nat) :=
  match s.next_payment with
  | Except.error e => Except.error e
  | Except.ok (o, s2) => Except.ok (o, s2.tx_list, s2.position)

/-- Observation of one `next_payment` call of `CsvPaymentsData`. -/
def CsvPaymentsData.obsNext (s : CsvPaymentsData) :
    Except RustPanic (Option String × List String × Nat) :=
  match s.next_payment with
  | Except.error e => Except.error e
  | Except.ok (o, s2) => Except.ok (o, s2.rows, s2.position)

/-- Observation of one `next_payment` call of `JSONPayments`. -/
def JSONPayments.obsNext (s : JSONPayments) :
    Except RustPanic (Option String × List String × Nat) :=
  match s.next_payment with
  | Except.error e => Except.error e
  | Except.ok (o, s2) => Except.ok (o, s2.tx_list, s2.position)

/-- Observation of one `process` call of `PaymentsData`. -/
def PaymentsData.obsProcess {T : Type} (s : PaymentsData) (f : String → T) :
    Except RustPanic (Option T × List String × Nat) :=
  match s.process f with
  | Except.error e => Except.error e
  | Except.ok (o, s2) => Except.ok (o, s2.tx_list, s2.position)

/-- Observation of one `process` call of `CsvPaymentsData`. -/
def CsvPaymentsData.obsProcess {T : Type} (s : CsvPaymentsData) (f : String → T) :
    Except RustPanic (Option T × List String × Nat) :=
  match s.process f with
  | Except.error e => Except.error e
  | Except.ok (o, s2) => Except.ok (o, s2.rows, s2.position)

/-- Observation of one `process` call of `JSONPayments`. -/
def JSONPayments.obsProcess {T : Type} (s : JSONPayments) (f : String → T) :
    Except RustPanic (Option T × List String × Nat) :=
  match s.process f with
  | Except.error e => Except.error e
  | Except.ok (o, s2) => Except.ok (o, s2.tx_list, s2.position)

/-- `Option.map` instrumented with the number of times the mapped
function is applied: `Rust Option::map` applies its closure exactly once
on `Some` and never on `None`. -/
def Option.mapCount {α β : Type} (f : α → β) : Option α → Option β × Nat
  | none => (none, 0)
  | some a => (some (f a), 1)

/-- `PaymentsData.process` with the source's `Option::map` replaced by the
counting map `Option.mapCount`, so the number of invocations of `f` in one
`process` call is an explicit output. -/
def PaymentsData.processTraced {T : Type} (s : PaymentsData) (f : String → T) :
    Except RustPanic ((Option T × Nat) × PaymentsData) :=
  match s.next_payment with
  | Except.error e => Except.error e
  | Except.ok (o, s2) => Except.ok (Option.mapCount f o, s2)

/-- `JSONPayments.process` with the source's `Option::map` replaced by the
counting map `Option.mapCount`. -/
def JSONPayments.processTraced {T : Type} (s : JSONPayments) (f : String → T) :
    Except RustPanic ((Option T × Nat) × JSONPayments) :=
  match s.next_payment with
  | Except.error e => Except.error e
  | Except.ok (o, s2) => Except.ok (Option.mapCount f o, s2)

/-- One-step characterization: below the bound, `PaymentsData.next_payment`
yields the record at the cursor and increments the cursor. -/
theorem pd_next_of_lt {l : List String} {p : Nat} (h : p < l.length) :
    (PaymentsData.mk l p).next_payment =
      Except.ok (some (l.get ⟨p, h⟩), PaymentsData.mk l (p + 1)) := by
  simp only [PaymentsData.next_payment, ge_iff_le]
  rw [if_neg (by omega), List.getElem?_eq_getElem h]
  rfl

/-- One-step characterization: at or beyond the bound,
`PaymentsData.next_payment` yields nothing and keeps the state. -/
theorem pd_next_of_ge {l : List String} {p : Nat} (h : l.length ≤ p) :
    (PaymentsData.mk l p).next_payment = Except.ok (none, PaymentsData.mk l p) := by
  simp only [PaymentsData.next_payment, ge_iff_le]
  rw [if_pos h]

/-- One-step characterization: below the bound, `CsvPaymentsData.next_payment`
yields the record at the cursor and increments the cursor. -/
theorem csv_next_of_lt {l : List String} {p : Nat} (h : p < l.length) :
    (CsvPaymentsData.mk l p).next_payment =
      Except.ok (some (l.get ⟨p, h⟩), CsvPaymentsData.mk l (p + 1)) := by
  simp only [CsvPaymentsData.next_payment, ge_iff_le]
  rw [if_neg (by omega), List.getElem?_eq_getElem h]
  rfl

/-- One-step characterization: at or beyond the bound,
`CsvPaymentsData.next_payment` yields nothing and keeps the state. -/
theorem csv_next_of_ge {l : List String} {p : Nat} (h : l.length ≤ p) :
    (CsvPaymentsData.mk l p).next_payment = Except.ok (none, CsvPaymentsData.mk l p) := by
  simp only [CsvPaymentsData.next_payment, ge_iff_le]
  rw [if_pos h]

/-- One-step characterization: below the bound, `JSONPayments.next_payment`
yields the record at the cursor and increments the cursor. -/
theorem json_next_of_lt {l : List String} {p : Nat} (h : p < l.length) :
    (JSONPayments.mk l p).next_payment =
      Except.ok (some (l.get ⟨p, h⟩), JSONPayments.mk l (p + 1)) := by
  simp only [JSONPayments.next_payment]
  rw [if_neg (by omega), List.getElem?_eq_getElem h]
  rfl

/-- One-step characterization: at the bound, `JSONPayments.next_payment`
yields nothing and keeps the state. -/
theorem json_next_of_eq {l : List String} {p : Nat} (h : l.length = p) :
    (JSONPayments.mk l p).next_payment = Except.ok (none, JSONPayments.mk l p) := by
  simp only [JSONPayments.next_payment]
  rw [if_pos h]

/-- One-step characterization: strictly beyond the bound,
`JSONPayments.next_payment` indexes out of bounds and panics. -/
theorem json_next_of_gt {l : List String} {p : Nat} (h : l.length < p) :
    (JSONPayments.mk l p).next_payment = Except.error RustPanic.indexOutOfBounds := by
  simp only [JSONPayments.next_payment]
  rw [if_neg (by omega), List.getElem?_eq_none (by omega)]

/-- Below the bound, `PaymentsData.process` yields the transformed record. -/
theorem pd_process_of_lt {l : List String} {p : Nat} (h : p < l.length)
    {T : Type} (f : String → T) :
    (PaymentsData.mk l p).process f =
      Except.ok (some (f (l.get ⟨p, h⟩)), PaymentsData.mk l (p + 1)) := by
  simp only [PaymentsData.process, pd_next_of_lt h]
  rfl

/-- At or beyond the bound, `PaymentsData.process` yields nothing. -/
theorem pd_process_of_ge {l : List String} {p : Nat} (h : l.length ≤ p)
    {T : Type} (f : String → T) :
    (PaymentsData.mk l p).process f = Except.ok (none, PaymentsData.mk l p) := by
  simp only [PaymentsData.process, pd_next_of_ge h]
  rfl

/-- Below the bound, `CsvPaymentsData.process` yields the transformed record. -/
theorem csv_process_of_lt {l : List String} {p : Nat} (h : p < l.length)
    {T : Type} (f : String → T) :
    (CsvPaymentsData.mk l p).process f =
      Except.ok (some (f (l.get ⟨p, h⟩)), CsvPaymentsData.mk l (p + 1)) := by
  simp only [CsvPaymentsData.process, csv_next_of_lt h]
  rfl

/-- At or beyond the bound, `CsvPaymentsData.process` yields nothing. -/
theorem csv_process_of_ge {l : List String} {p : Nat} (h : l.length ≤ p)
    {T : Type} (f : String → T) :
    (CsvPaymentsData.mk l p).process f = Except.ok (none, CsvPaymentsData.mk l p) := by
  simp only [CsvPaymentsData.process, csv_next_of_ge h]
  rfl

/-- Below the bound, `JSONPayments.process` yields the transformed record. -/
theorem json_process_of_lt {l : List String} {p : Nat} (h : p < l.length)
    {T : Type} (f : String → T) :
    (JSONPayments.mk l p).process f =
      Except.ok (some (f (l.get ⟨p, h⟩)), JSONPayments.mk l (p + 1)) := by
  simp only [JSONPayments.process, json_next_of_lt h]
  rfl

/-- At the bound, `JSONPayments.process` yields nothing. -/
theorem json_process_of_eq {l : List String} {p : Nat} (h : l.length = p)
    {T : Type} (f : String → T) :
    (JSONPayments.mk l p).process f = Except.ok (none, JSONPayments.mk l p) := by
  simp only [JSONPayments.process, json_next_of_eq h]
  rfl

/-- Strictly beyond the bound, `JSONPayments.process` panics. -/
theorem json_process_of_gt {l : List String} {p : Nat} (h : l.length < p)
    {T : Type} (f : String → T) :
    (JSONPayments.mk l p).process f = Except.error RustPanic.indexOutOfBounds := by
  simp only [JSONPayments.process, json_next_of_gt h]

/-- C1: for every processor state with cursor strictly below the sequence
length, `next_payment` (of `PaymentsData` and of `CsvPaymentsData`) returns
the record at the current cursor position and increments the cursor by one;
when the cursor equals the sequence length, `next_payment` returns none and
the cursor is unchanged. -/
theorem claim_C1 : ∀ (l : List String) (p : Nat),
    (∀ h : p < l.length,
      (PaymentsData.mk l p).next_payment =
        Except.ok (some (l.get ⟨p, h⟩), PaymentsData.mk l (p + 1))
      ∧ (CsvPaymentsData.mk l p).next_payment =
        Except.ok (some (l.get ⟨p, h⟩), CsvPaymentsData.mk l (p + 1)))
    ∧ (p = l.length →
      (PaymentsData.mk l p).next_payment = Except.ok (none, PaymentsData.mk l p)
      ∧ (CsvPaymentsData.mk l p).next_payment =
        Except.ok (none, CsvPaymentsData.mk l p)) := by
  intro l p
  refine ⟨fun h => ⟨pd_next_of_lt h, csv_next_of_lt h⟩, fun h => ?_⟩
  exact ⟨pd_next_of_ge (by omega), csv_next_of_ge (by omega)⟩

/-- Witness for C1 at the concrete store `["a", "b"]` with cursor 0. -/
theorem claim_C1_witness :
    ((0 : Nat) < (["a", "b"] : List String).length)
    ∧ (PaymentsData.mk ["a", "b"] 0).next_payment =
        Except.ok (some "a", PaymentsData.mk ["a", "b"] 1) :=
  ⟨by decide, ((claim_C1 ["a", "b"] 0).1 (by decide)).1⟩

/-- C3: for every non-exhausted store (cursor strictly below length) and
every transform `f`, `process f` returns `some (f record)` for the record at
the cursor, and the successor state equals the one a plain `next_payment`
call produces, for `PaymentsData` and `CsvPaymentsData` alike. -/
theorem claim_C3 : ∀ (l : List String) (p : Nat) (h : p < l.length)
    (T : Type) (f : String → T),
    (PaymentsData.mk l p).process f =
      Except.ok (some (f (l.get ⟨p, h⟩)), PaymentsData.mk l (p + 1))
    ∧ (PaymentsData.mk l p).next_payment =
      Except.ok (some (l.get ⟨p, h⟩), PaymentsData.mk l (p + 1))
    ∧ (CsvPaymentsData.mk l p).process f =
      Except.ok (some (f (l.get ⟨p, h⟩)), CsvPaymentsData.mk l (p + 1))
    ∧ (CsvPaymentsData.mk l p).next_payment =
      Except.ok (some (l.get ⟨p, h⟩), CsvPaymentsData.mk l (p + 1)) :=
  fun _ _ h _ f =>
    ⟨pd_process_of_lt h f, pd_next_of_lt h, csv_process_of_lt h f, csv_next_of_lt h⟩

/-- Witness for C3 at the store `["r"]`, cursor 0, and `f` the identity. -/
theorem claim_C3_witness :
    ((0 : Nat) < (["r"] : List String).length)
    ∧ (PaymentsData.mk ["r"] 0).process (fun x => x) =
        Except.ok (some "r", PaymentsData.mk ["r"] 1) :=
  ⟨by decide, (claim_C3 ["r"] 0 (by decide) String (fun x => x)).1⟩

/-- C4: for every exhausted store (cursor equal to the sequence length,
the empty store with cursor 0 included) and every transform `f`,
`process f` returns none with the state unchanged; the result does not
depend on `f`, so `f` is never invoked. Holds for all three variants. -/
theorem claim_C4 : ∀ (l : List String) (T : Type) (f : String → T),
    (PaymentsData.mk l l.length).process f =
      Except.ok (none, PaymentsData.mk l l.length)
    ∧ (CsvPaymentsData.mk l l.length).process f =
      Except.ok (none, CsvPaymentsData.mk l l.length)
    ∧ (JSONPayments.mk l l.length).process f =
      Except.ok (none, JSONPayments.mk l l.length) :=
  fun _ _ f => ⟨pd_process_of_ge le_rfl f, csv_process_of_ge le_rfl f,
    json_process_of_eq rfl f⟩

/-- C10: `PaymentsData.next_payment` and `CsvPaymentsData.next_payment`
never panic on any state, cursors strictly beyond the length included: the
result is always `ok`, carrying `getElem?` at the cursor (hence none
whenever the cursor is at or beyond the length, with the state unchanged),
because the greater-or-equal guard makes the index in the success branch
in-bounds. -/
theorem claim_C10 : ∀ (s : PaymentsData) (c : CsvPaymentsData),
    s.next_payment = Except.ok (s.tx_list[s.position]?,
      if s.tx_list.length ≤ s.position then s
      else PaymentsData.mk s.tx_list (s.position + 1))
    ∧ c.next_payment = Except.ok (c.rows[c.position]?,
      if c.rows.length ≤ c.position then c
      else CsvPaymentsData.mk c.rows (c.position + 1)) := by
  rintro ⟨l, p⟩ ⟨m, q⟩
  constructor
  · show (PaymentsData.mk l p).next_payment = Except.ok (l[p]?,
      if l.length ≤ p then PaymentsData.mk l p else PaymentsData.mk l (p + 1))
    by_cases h : l.length ≤ p
    · rw [if_pos h, List.getElem?_eq_none h, pd_next_of_ge h]
    · rw [if_neg h, List.getElem?_eq_getElem (show p < l.length by omega),
        pd_next_of_lt (show p < l.length by omega)]
      rfl
  · show (CsvPaymentsData.mk m q).next_payment = Except.ok (m[q]?,
      if m.length ≤ q then CsvPaymentsData.mk m q else CsvPaymentsData.mk m (q + 1))
    by_cases h : m.length ≤ q
    · rw [if_pos h, List.getElem?_eq_none h, csv_next_of_ge h]
    · rw [if_neg h, List.getElem?_eq_getElem (show q < m.length by omega),
        csv_next_of_lt (show q < m.length by omega)]
      rfl

/-- Indexing at or beyond the length yields none at every offset. -/
theorem map_getElem?_of_ge (l : List String) (p k : Nat) (h : l.length ≤ p) :
    ((List.range k).map fun i => l[p + i]?) = List.replicate k none := by
  refine List.eq_replicate_iff.2 ⟨by simp, ?_⟩
  intro b hb
  simp only [List.mem_map, List.mem_range] at hb
  obtain ⟨i, _, rfl⟩ := hb
  exact List.getElem?_eq_none (by omega)

/-- Full characterization of iterated `PaymentsData.next_payment` from any
in-bounds cursor: the i-th call yields the record at index `p + i` when that
exists and none otherwise, and the final cursor is clamped at the length. -/
theorem pd_runN_eq (k : Nat) : ∀ (l : List String) (p : Nat), p ≤ l.length →
    PaymentsData.runN k (PaymentsData.mk l p) =
      Except.ok (((List.range k).map fun i => l[p + i]?),
        PaymentsData.mk l (min (p + k) l.length)) := by
  induction k with
  | zero =>
    intro l p hp
    simp [PaymentsData.runN, Nat.min_eq_left hp]
  | succ k ih =>
    intro l p hp
    rcases Nat.lt_or_ge p l.length with h | h
    · simp only [PaymentsData.runN, pd_next_of_lt h]
      rw [ih l (p + 1) h]
      have ht : ((fun i => l[p + i]?) ∘ Nat.succ) = fun i => l[p + 1 + i]? := by
        funext i
        show l[p + Nat.succ i]? = l[p + 1 + i]?
        rw [show p + Nat.succ i = p + 1 + i from by omega]
      simp only [List.range_succ_eq_map, List.map_cons, List.map_map, Nat.add_zero,
        List.getElem?_eq_getElem h, ht,
        show p + 1 + k = p + (k + 1) from by omega]
      rfl
    · simp only [PaymentsData.runN, pd_next_of_ge h]
      rw [ih l p hp]
      rw [map_getElem?_of_ge l p k h, map_getElem?_of_ge l p (k + 1) h]
      rw [show min (p + k) l.length = l.length from by omega,
        show min (p + (k + 1)) l.length = l.length from by omega]
      rfl

/-- C2: for every store of length N started at cursor 0, the i-th of k
`next_payment` calls yields the record at index i of the original sequence
when i is below N (present, in original order) and none once i reaches N
(absent forever after), the final cursor being min k N; indices below the
length are present and indices at or beyond it absent. -/
theorem claim_C2 : ∀ (l : List String) (k : Nat),
    PaymentsData.runN k (PaymentsData.mk l 0) =
      Except.ok (((List.range k).map fun i => l[i]?),
        PaymentsData.mk l (min k l.length))
    ∧ (∀ i : Fin l.length, l[(i : Nat)]? = some (l.get i))
    ∧ (∀ i : Nat, l.length ≤ i → l[i]? = none) := by
  intro l k
  refine ⟨?_, fun i => List.getElem?_eq_getElem i.isLt, fun i hi => List.getElem?_eq_none hi⟩
  have h := pd_runN_eq k l 0 (Nat.zero_le _)
  simpa using h

/-- Witness for C2 at the concrete store `["a"]` with two calls. -/
theorem claim_C2_witness :
    PaymentsData.runN 2 (PaymentsData.mk ["a"] 0) =
      Except.ok ([some "a", none], PaymentsData.mk ["a"] 1)
    ∧ (["a"] : List String)[1]? = none :=
  ⟨(claim_C2 ["a"] 2).1, (claim_C2 ["a"] 2).2.2 1 (by decide)⟩

/-- Iterating `PaymentsData.next_payment` from an exhausted state yields
none every time and never moves the cursor. -/
theorem pd_runN_exhausted (k : Nat) (s : PaymentsData)
    (h : s.position = s.tx_list.length) :
    PaymentsData.runN k s = Except.ok (List.replicate k none, s) := by
  obtain ⟨l, p⟩ := s
  have hle : l.length ≤ p := by simpa using h.ge
  induction k with
  | zero => rfl
  | succ k ih =>
    simp only [PaymentsData.runN, pd_next_of_ge hle]
    rw [ih]
    rfl

/-- Iterating `JSONPayments.next_payment` from an exhausted state yields
none every time and never moves the cursor. -/
theorem json_runN_exhausted (k : Nat) (s : JSONPayments)
    (h : s.position = s.tx_list.length) :
    JSONPayments.runN k s = Except.ok (List.replicate k none, s) := by
  obtain ⟨l, p⟩ := s
  have heq : l.length = p := by simpa using h.symm
  induction k with
  | zero => rfl
  | succ k ih =>
    simp only [JSONPayments.runN, json_next_of_eq heq]
    rw [ih]
    rfl

/-- One `PaymentsData.next_payment` call never decrements the cursor and
never moves it beyond `max position length`. -/
theorem pd_next_mono {l : List String} {p : Nat} {o : Option String}
    {s2 : PaymentsData}
    (hs : (PaymentsData.mk l p).next_payment = Except.ok (o, s2)) :
    p ≤ s2.position ∧ s2.position ≤ max p l.length := by
  rcases Nat.lt_or_ge p l.length with h | h
  · rw [pd_next_of_lt h] at hs
    cases hs
    exact ⟨Nat.le_succ p, Nat.le_trans h (Nat.le_max_right p l.length)⟩
  · rw [pd_next_of_ge h] at hs
    cases hs
    exact ⟨Nat.le_refl p, Nat.le_max_left p l.length⟩

/-- One `JSONPayments.next_payment` call never decrements the cursor and
never moves it beyond `max position length`. -/
theorem json_next_mono {m : List String} {q : Nat} {o : Option String}
    {j2 : JSONPayments}
    (hs : (JSONPayments.mk m q).next_payment = Except.ok (o, j2)) :
    q ≤ j2.position ∧ j2.position ≤ max q m.length := by
  rcases Nat.lt_trichotomy q m.length with h | h | h
  · rw [json_next_of_lt h] at hs
    cases hs
    exact ⟨Nat.le_succ q, Nat.le_trans h (Nat.le_max_right q m.length)⟩
  · rw [json_next_of_eq h.symm] at hs
    cases hs
    exact ⟨Nat.le_refl q, Nat.le_max_left q m.length⟩
  · rw [json_next_of_gt h] at hs
    cases hs

/-- One `PaymentsData.process` call never decrements the cursor and never
moves it beyond `max position length`. -/
theorem pd_process_mono {l : List String} {p : Nat} {T : Type}
    {f : String → T} {o : Option T} {s2 : PaymentsData}
    (hs : (PaymentsData.mk l p).process f = Except.ok (o, s2)) :
    p ≤ s2.position ∧ s2.position ≤ max p l.length := by
  rcases Nat.lt_or_ge p l.length with h | h
  · rw [pd_process_of_lt h f] at hs
    cases hs
    exact ⟨Nat.le_succ p, Nat.le_trans h (Nat.le_max_right p l.length)⟩
  · rw [pd_process_of_ge h f] at hs
    cases hs
    exact ⟨Nat.le_refl p, Nat.le_max_left p l.length⟩

/-- One `JSONPayments.process` call never decrements the cursor and never
moves it beyond `max position length`. -/
theorem json_process_mono {m : List String} {q : Nat} {T : Type}
    {f : String → T} {o : Option T} {j2 : JSONPayments}
    (hs : (JSONPayments.mk m q).process f = Except.ok (o, j2)) :
    q ≤ j2.position ∧ j2.position ≤ max q m.length := by
  rcases Nat.lt_trichotomy q m.length with h | h | h
  · rw [json_process_of_lt h f] at hs
    cases hs
    exact ⟨Nat.le_succ q, Nat.le_trans h (Nat.le_max_right q m.length)⟩
  · rw [json_process_of_eq h.symm f] at hs
    cases hs
    exact ⟨Nat.le_refl q, Nat.le_max_left q m.length⟩
  · rw [json_process_of_gt h f] at hs
    cases hs

/-- C6: on an exhausted store (cursor at the sequence length) any number of
`next_payment` calls returns none every time and leaves the cursor at the
length, for `PaymentsData` and `JSONPayments` alike; moreover no successful
`next_payment` or `process` call ever decrements the cursor or moves it
beyond the clamp `max position length`. -/
theorem claim_C6 : ∀ (s : PaymentsData) (j : JSONPayments) (k : Nat),
    (s.position = s.tx_list.length →
      PaymentsData.runN k s = Except.ok (List.replicate k none, s))
    ∧ (j.position = j.tx_list.length →
      JSONPayments.runN k j = Except.ok (List.replicate k none, j))
    ∧ (∀ (o : Option String) (s2 : PaymentsData),
        s.next_payment = Except.ok (o, s2) →
        s.position ≤ s2.position ∧ s2.position ≤ max s.position s.tx_list.length)
    ∧ (∀ (o : Option String) (j2 : JSONPayments),
        j.next_payment = Except.ok (o, j2) →
        j.position ≤ j2.position ∧ j2.position ≤ max j.position j.tx_list.length)
    ∧ (∀ (T : Type) (f : String → T) (o : Option T) (s2 : PaymentsData),
        s.process f = Except.ok (o, s2) →
        s.position ≤ s2.position ∧ s2.position ≤ max s.position s.tx_list.length)
    ∧ (∀ (T : Type) (f : String → T) (o : Option T) (j2 : JSONPayments),
        j.process f = Except.ok (o, j2) →
        j.position ≤ j2.position ∧ j2.position ≤ max j.position j.tx_list.length) := by
  intro s j k
  obtain ⟨l, p⟩ := s
  obtain ⟨m, q⟩ := j
  exact ⟨pd_runN_exhausted k _, json_runN_exhausted k _,
    fun o s2 hs => pd_next_mono hs,
    fun o j2 hs => json_next_mono hs,
    fun T f o s2 hs => pd_process_mono hs,
    fun T f o j2 hs => json_process_mono hs⟩

/-- Witness for C6 at the exhausted store `["a"]` with cursor 1, two calls. -/
theorem claim_C6_witness :
    PaymentsData.runN 2 (PaymentsData.mk ["a"] 1) =
      Except.ok ([none, none], PaymentsData.mk ["a"] 1) :=
  (claim_C6 (PaymentsData.mk ["a"] 1) (JSONPayments.mk [] 0) 2).1 (by decide)

/-- C5 counterexample: at the concrete state with the empty sequence and
cursor 1 (a cursor value strictly above the length), `PaymentsData` returns
none and keeps the state while `JSONPayments` panics with an out-of-bounds
index, so the three variants do NOT agree for every cursor value. -/
theorem claim_C5_counterexample :
    (PaymentsData.mk ([] : List String) 1).obsNext = Except.ok (none, [], 1)
    ∧ (JSONPayments.mk ([] : List String) 1).obsNext =
        Except.error RustPanic.indexOutOfBounds
    ∧ (PaymentsData.mk ([] : List String) 1).obsNext ≠
        (JSONPayments.mk ([] : List String) 1).obsNext := by
  refine ⟨rfl, rfl, ?_⟩
  intro h
  rw [show (PaymentsData.mk ([] : List String) 1).obsNext =
        Except.ok (none, [], 1) from rfl,
      show (JSONPayments.mk ([] : List String) 1).obsNext =
        Except.error RustPanic.indexOutOfBounds from rfl] at h
  exact Except.noConfusion h

/-- C5 (amended): restricted to cursor values not exceeding the sequence
length, the three processor variants have no behavioral variation: for every
sequence of strings and every such cursor value, `next_payment` and
`process` produce equal yielded results and equal successor states. -/
theorem claim_C5_amended : ∀ (l : List String) (p : Nat), p ≤ l.length →
    ((PaymentsData.mk l p).obsNext = (CsvPaymentsData.mk l p).obsNext
      ∧ (PaymentsData.mk l p).obsNext = (JSONPayments.mk l p).obsNext)
    ∧ ∀ (T : Type) (f : String → T),
        (PaymentsData.mk l p).obsProcess f = (CsvPaymentsData.mk l p).obsProcess f
        ∧ (PaymentsData.mk l p).obsProcess f = (JSONPayments.mk l p).obsProcess f := by
  intro l p hp
  rcases Nat.lt_or_ge p l.length with h | h
  · refine ⟨⟨?_, ?_⟩, fun T f => ⟨?_, ?_⟩⟩
    · simp only [PaymentsData.obsNext, CsvPaymentsData.obsNext,
        pd_next_of_lt h, csv_next_of_lt h]
    · simp only [PaymentsData.obsNext, JSONPayments.obsNext,
        pd_next_of_lt h, json_next_of_lt h]
    · simp only [PaymentsData.obsProcess, CsvPaymentsData.obsProcess,
        pd_process_of_lt h f, csv_process_of_lt h f]
    · simp only [PaymentsData.obsProcess, JSONPayments.obsProcess,
        pd_process_of_lt h f, json_process_of_lt h f]
  · have heq : l.length = p := by omega
    refine ⟨⟨?_, ?_⟩, fun T f => ⟨?_, ?_⟩⟩
    · simp only [PaymentsData.obsNext, CsvPaymentsData.obsNext,
        pd_next_of_ge h, csv_next_of_ge h]
    · simp only [PaymentsData.obsNext, JSONPayments.obsNext,
        pd_next_of_ge h, json_next_of_eq heq]
    · simp only [PaymentsData.obsProcess, CsvPaymentsData.obsProcess,
        pd_process_of_ge h f, csv_process_of_ge h f]
    · simp only [PaymentsData.obsProcess, JSONPayments.obsProcess,
        pd_process_of_ge h f, json_process_of_eq heq f]

/-- Witness for the amended C5 at the store `["x"]` with cursor 1. -/
theorem claim_C5_witness :
    (PaymentsData.mk (["x"] : List String) 1).obsNext =
      (JSONPayments.mk (["x"] : List String) 1).obsNext :=
  ((claim_C5_amended ["x"] 1 (by decide)).1).2

/-- C7: from any state satisfying the invariant `cursor ≤ length`, every
successful `next_payment` and `process` call of each of the three variants
preserves the invariant and leaves the stored sequence of strings unchanged. -/
theorem claim_C7 : ∀ (l : List String) (p : Nat), p ≤ l.length →
    (∀ (o : Option String) (s2 : PaymentsData),
      (PaymentsData.mk l p).next_payment = Except.ok (o, s2) →
      s2.tx_list = l ∧ s2.position ≤ s2.tx_list.length)
    ∧ (∀ (T : Type) (f : String → T) (o : Option T) (s2 : PaymentsData),
      (PaymentsData.mk l p).process f = Except.ok (o, s2) →
      s2.tx_list = l ∧ s2.position ≤ s2.tx_list.length)
    ∧ (∀ (o : Option String) (c2 : CsvPaymentsData),
      (CsvPaymentsData.mk l p).next_payment = Except.ok (o, c2) →
      c2.rows = l ∧ c2.position ≤ c2.rows.length)
    ∧ (∀ (T : Type) (f : String → T) (o : Option T) (c2 : CsvPaymentsData),
      (CsvPaymentsData.mk l p).process f = Except.ok (o, c2) →
      c2.rows = l ∧ c2.position ≤ c2.rows.length)
    ∧ (∀ (o : Option String) (j2 : JSONPayments),
      (JSONPayments.mk l p).next_payment = Except.ok (o, j2) →
      j2.tx_list = l ∧ j2.position ≤ j2.tx_list.length)
    ∧ (∀ (T : Type) (f : String → T) (o : Option T) (j2 : JSONPayments),
      (JSONPayments.mk l p).process f = Except.ok (o, j2) →
      j2.tx_list = l ∧ j2.position ≤ j2.tx_list.length) := by
  intro l p hp
  rcases Nat.lt_or_ge p l.length with h | h
  · refine ⟨?_, ?_, ?_, ?_, ?_, ?_⟩
    · intro o s2 hs
      rw [pd_next_of_lt h] at hs
      cases hs
      exact ⟨rfl, h⟩
    · intro T f o s2 hs
      rw [pd_process_of_lt h f] at hs
      cases hs
      exact ⟨rfl, h⟩
    · intro o c2 hs
      rw [csv_next_of_lt h] at hs
      cases hs
      exact ⟨rfl, h⟩
    · intro T f o c2 hs
      rw [csv_process_of_lt h f] at hs
      cases hs
      exact ⟨rfl, h⟩
    · intro o j2 hs
      rw [json_next_of_lt h] at hs
      cases hs
      exact ⟨rfl, h⟩
    · intro T f o j2 hs
      rw [json_process_of_lt h f] at hs
      cases hs
      exact ⟨rfl, h⟩
  · have heq : l.length = p := by omega
    refine ⟨?_, ?_, ?_, ?_, ?_, ?_⟩
    · intro o s2 hs
      rw [pd_next_of_ge h] at hs
      cases hs
      exact ⟨rfl, hp⟩
    · intro T f o s2 hs
      rw [pd_process_of_ge h f] at hs
      cases hs
      exact ⟨rfl, hp⟩
    · intro o c2 hs
      rw [csv_next_of_ge h] at hs
      cases hs
      exact ⟨rfl, hp⟩
    · intro T f o c2 hs
      rw [csv_process_of_ge h f] at hs
      cases hs
      exact ⟨rfl, hp⟩
    · intro o j2 hs
      rw [json_next_of_eq heq] at hs
      cases hs
      exact ⟨rfl, hp⟩
    · intro T f o j2 hs
      rw [json_process_of_eq heq f] at hs
      cases hs
      exact ⟨rfl, hp⟩

/-- Witness for C7 at the store `["a"]` with cursor 0. -/
theorem claim_C7_witness :
    (["a"] : List String) = ["a"] ∧ (1 : Nat) ≤ (["a"] : List String).length :=
  (claim_C7 ["a"] 0 (by decide)).1 (some "a") (PaymentsData.mk ["a"] 1) (by rfl)

/-- C8: a single `process f` call of `PaymentsData` or `JSONPayments`
invokes `f` at most once: whenever the invocation-counting instrumentation
`processTraced` succeeds, its count is at most 1 and erasing the count
recovers exactly the `process` result. -/
theorem claim_C8 : ∀ (s : PaymentsData) (j : JSONPayments) (T : Type)
    (f : String → T),
    (∀ (r : Option T × Nat) (s2 : PaymentsData),
      s.processTraced f = Except.ok (r, s2) →
      r.2 ≤ 1 ∧ s.process f = Except.ok (r.1, s2))
    ∧ (∀ (r : Option T × Nat) (j2 : JSONPayments),
      j.processTraced f = Except.ok (r, j2) →
      r.2 ≤ 1 ∧ j.process f = Except.ok (r.1, j2)) := by
  intro s j T f
  constructor
  · intro r s2 hr
    unfold PaymentsData.processTraced at hr
    unfold PaymentsData.process
    cases hnp : s.next_payment with
    | error e =>
      rw [hnp] at hr
      cases hr
    | ok p2 =>
      obtain ⟨o, s3⟩ := p2
      rw [hnp] at hr
      cases hr
      cases o with
      | none => exact ⟨Nat.zero_le 1, rfl⟩
      | some a => exact ⟨Nat.le_refl 1, rfl⟩
  · intro r j2 hr
    unfold JSONPayments.processTraced at hr
    unfold JSONPayments.process
    cases hnp : j.next_payment with
    | error e =>
      rw [hnp] at hr
      cases hr
    | ok p2 =>
      obtain ⟨o, j3⟩ := p2
      rw [hnp] at hr
      cases hr
      cases o with
      | none => exact ⟨Nat.zero_le 1, rfl⟩
      | some a => exact ⟨Nat.le_refl 1, rfl⟩

/-- Witness for C8 at the store `["a"]`, cursor 0, `f` the identity. -/
theorem claim_C8_witness :
    (PaymentsData.mk ["a"] 0).processTraced (fun x => x) =
      Except.ok ((some "a", 1), PaymentsData.mk ["a"] 1)
    ∧ (1 : Nat) ≤ 1
    ∧ (PaymentsData.mk ["a"] 0).process (fun x => x) =
      Except.ok (some "a", PaymentsData.mk ["a"] 1) :=
  ⟨rfl,
   ((claim_C8 (PaymentsData.mk ["a"] 0) (JSONPayments.mk [] 0) String
      (fun x => x)).1 (some "a", 1) (PaymentsData.mk ["a"] 1) rfl).1,
   ((claim_C8 (PaymentsData.mk ["a"] 0) (JSONPayments.mk [] 0) String
      (fun x => x)).1 (some "a", 1) (PaymentsData.mk ["a"] 1) rfl).2⟩

/-- Modelled from the spec: the JSON values a serialized `PaymentInfo`
record ranges over. The serde derive code that serializes and deserializes
`PaymentInfo` is generated outside this repository's sources, so JSON is
modelled at the level of its value tree; the numeric `amount` field (an
`f64` in the source) is modelled by rational numbers. -/
inductive JsonValue where
  | str : String → JsonValue
  | num : Rat → JsonValue
  | bool : Bool → JsonValue
  | obj : List (String × JsonValue) → JsonValue

/-- `PaymentInfo` (lib.rs lines 19-25 and day1_replication.rs lines 22-28):
fields `date`, `amount`, `method`, `is_successful`. -/
structure PaymentInfo where
  date : String
  amount : Rat
  method : String
  is_successful : Bool
deriving DecidableEq

/-- Key lookup in a JSON object's field list: the first binding wins. -/
def jsonLookup (fields : List (String × JsonValue)) (key : String) :
    Option JsonValue :=
  match fields with
  | [] => none
  | (k, v) :: rest => if k = key then some v else jsonLookup rest key

/-- Modelled from the spec: the reference JSON encoding of a `PaymentInfo`
record, an object with required keys `date` (string), `amount` (number),
`method` (string) and `is_successful` (boolean), as produced by the serde
derive that is not part of this repository's sources. -/
def encodePaymentInfo (r : PaymentInfo) : JsonValue :=
  JsonValue.obj [("date", JsonValue.str r.date),
    ("amount", JsonValue.num r.amount),
    ("method", JsonValue.str r.method),
    ("is_successful", JsonValue.bool r.is_successful)]

/-- Modelled from the spec: decoding a JSON value into a `PaymentInfo`
record, requiring an object with the four typed keys `date` (string),
`amount` (number), `method` (string) and `is_successful` (boolean), as the
serde derive that is not part of this repository's sources does. -/
def decodePaymentInfo (j : JsonValue) : Option PaymentInfo :=
  match j with
  | JsonValue.obj fields =>
    match jsonLookup fields "date", jsonLookup fields "amount",
        jsonLookup fields "method", jsonLookup fields "is_successful" with
    | some (JsonValue.str d), some (JsonValue.num a),
        some (JsonValue.str m), some (JsonValue.bool b) =>
      some (PaymentInfo.mk d a m b)
    | _, _, _, _ => none
  | _ => none

/-- C9: for every `PaymentInfo` record, decoding the JSON produced by the
reference encoding of that record recovers a record equal field-for-field
to the original (so re-encoding it reproduces the same JSON). -/
theorem claim_C9 : ∀ r : PaymentInfo,
    decodePaymentInfo (encodePaymentInfo r) = some r
    ∧ (decodePaymentInfo (encodePaymentInfo r)).map encodePaymentInfo =
      some (encodePaymentInfo r) := by
  intro r
  constructor
  · rfl
  · rfl
